import Mathlib

/-!
Shallow embedding of the youtube-backend user-account service: the Mongoose user model
(src/src/models/user.model.js), the user controller (src/src/controllers/user.controller.js)
and the asyncHandler utility (src/unnamed/part_002), together with models of the external
collaborators the controller calls (bcrypt, jsonwebtoken, the Mongo document store and the
blob-storage uploader).

Conventions of the embedding:
- the document store is a list of user records threaded through every handler;
- every handler returns the outcome of the request (a response, or the thrown error) paired
  with the store as it stands after the request;
- JavaScript undefined on an optional request field is Option.none, and JavaScript string
  truthiness is modelled explicitly where the source relies on it;
- exceptions that are not ApiError instances (jsonwebtoken verification errors, Mongoose
  validation errors, TypeError) are separate constructors of HandlerError, because the app
  installs no error-handling middleware: the Express fallback handler maps them to HTTP 500,
  while ApiError carries its own statusCode.
-/

/-- Claim set of a signed JWT: subject (the Mongo _id the controller reads as decodedToken._id),
issued-at and expiry, all in seconds. -/
structure JwtPayload where
  sub : Nat
  iat : Nat
  exp : Nat
deriving DecidableEq, Repr

/-- A signed token as produced by jsonwebtoken: the encoded string determines the payload and is
bound to the signing secret. Two token strings are equal exactly when payload and secret agree. -/
structure Jwt where
  payload : JwtPayload
  secret : String
deriving DecidableEq, Repr

/-- Failure modes of jwt.verify: not a JWT at all, signature made with a different secret, or
structurally expired. -/
inductive JwtError where
  | malformed : JwtError
  | invalidSignature : JwtError
  | expired : JwtError
deriving DecidableEq, Repr

/-- A string presented by a client where a token is expected: either the encoded form of a signed
JWT, or any other string (tampered or malformed input). -/
inductive PresentedToken where
  | jwtStr : Jwt → PresentedToken
  | rawStr : String → PresentedToken
deriving DecidableEq, Repr

/-- jwt.verify checks the signature against the given secret and then the expiry against the
current time, returning the decoded payload on success and throwing otherwise. -/
def jwtVerify (tokenString : PresentedToken) (secret : String) (now : Nat) :
    Except JwtError JwtPayload :=
  match tokenString with
  | .rawStr _ => .error .malformed
  | .jwtStr t =>
    if t.secret = secret then
      if now < t.payload.exp then .ok t.payload else .error .expired
    else .error .invalidSignature

/-- JavaScript truthiness of a token-bearing string: only the empty string is falsy. -/
def tokenStringTruthy : PresentedToken → Bool
  | .jwtStr _ => true
  | .rawStr s => s != ""

/-- Normalisation used to model JavaScript conditionals on an optional string value: a missing
value and a falsy value behave alike. -/
def jsTruthyToken : Option PresentedToken → Option PresentedToken
  | none => none
  | some p => if tokenStringTruthy p then some p else none

/-- The expression a or-or b on optional token strings: a when a is truthy, b otherwise. -/
def jsOrToken (a b : Option PresentedToken) : Option PresentedToken :=
  match jsTruthyToken a with
  | some p => some p
  | none => b

/-- The strict inequality comparison requestRefreshToken !== existingUser.refreshToken compares
the presented string with the stored string. A stored null never equals a string, and a raw
non-JWT string never equals the stored encoding of a signed token. This Bool is true when the
two are equal. -/
def tokenStringEq (presented : PresentedToken) (stored : Option Jwt) : Bool :=
  match presented, stored with
  | .jwtStr t, some s => t == s
  | _, _ => false

/-- Model of the JavaScript String.prototype.trim, over the character list (strips whitespace
from both ends). -/
def jsTrim (s : String) : String :=
  ⟨((s.data.dropWhile Char.isWhitespace).reverse.dropWhile Char.isWhitespace).reverse⟩

/-- Model of String.prototype.toLowerCase and of the Mongoose lowercase setter, over the
character list. -/
def jsToLower (s : String) : String := ⟨s.data.map Char.toLower⟩

/-- Tag that opens every bcrypt hash produced by the model. -/
def hashTagChars : List Char := "$2b$10$".data

/-- Model of bcrypt.hash with cost 10: a one-way, deterministically verifiable digest. The model
keeps just what the claims need: the output is distinguishable from plaintext inputs (it opens
with the bcrypt tag) and bcryptCompare recognises exactly the hash of the given password. -/
def bcryptHash (password : String) : String := "$2b$10$" ++ password

/-- Model of bcrypt.compare: succeeds exactly when the stored string is the hash of the
presented password. -/
def bcryptCompare (password stored : String) : Bool := bcryptHash password == stored

/-- Whether a string has the shape of a bcrypt hash (opens with the bcrypt tag). -/
def hashShaped (s : String) : Bool := decide (s.data.take 7 = hashTagChars)

/-- A persisted user document, restricted to the schema paths of user.model.js that the modelled
handlers touch. The password field stores the bcrypt hash; refreshToken is the nullable single
currently-issued refresh token. -/
structure UserRecord where
  id : Nat
  username : String
  email : String
  fullname : String
  avatar : String
  coverImage : String
  password : String
  refreshToken : Option Jwt
deriving DecidableEq, Repr

/-- The document store: the users collection. -/
abbrev DB := List UserRecord

/-- User.findById: first record whose _id matches. -/
def findById (db : DB) (i : Nat) : Option UserRecord :=
  List.find? (fun u => u.id == i) db

/-- One branch of the $or filter in User.findOne. A branch whose value is undefined matches no
stored record: every stored user has a non-null username and email (both are required paths), so
the driver serialisation of undefined matches none of them. -/
def queryFieldMatches (value : Option String) (field : String) : Bool :=
  match value with
  | some v => field == v
  | none => false

/-- User.findOne with the filter $or username, email as used by registerUser and loginUser. -/
def findOneByUsernameOrEmail (db : DB) (username email : Option String) : Option UserRecord :=
  List.find? (fun u => queryFieldMatches username u.username || queryFieldMatches email u.email) db

/-- Update every record carrying the given _id through f (the store is keyed by _id, so at most
one record is affected in a well-formed store). -/
def dbUpdateById (db : DB) (i : Nat) (f : UserRecord → UserRecord) : DB :=
  List.map (fun u => if u.id == i then f u else u) db

/-- Write an in-memory document back over the stored record with the same _id. -/
def dbReplace (db : DB) (doc : UserRecord) : DB :=
  dbUpdateById db doc.id (fun _ => doc)

/-- The pre-save hook of userSchema: when the password path is not modified the document is saved
as it is; when it is modified the password is replaced by its bcrypt hash before the write. -/
def preSaveHook (doc : UserRecord) (passwordModified : Bool) : UserRecord :=
  if passwordModified then { doc with password := bcryptHash doc.password } else doc

/-- document.save: run the pre-save hook, then persist the document over the record with the
same _id. The passwordModified flag is the Mongoose dirty check isModified("password"): true
exactly when the caller assigned the password path since the document was fetched. -/
def userSave (db : DB) (doc : UserRecord) (passwordModified : Bool) : DB :=
  dbReplace db (preSaveHook doc passwordModified)

/-- userSchema.methods.isPasswordCorrect: bcrypt.compare of the candidate against the stored
hash. -/
def isPasswordCorrect (u : UserRecord) (password : String) : Bool :=
  bcryptCompare password u.password

/-- Modelled from the spec: the env configuration (distinct signing secrets are mandatory,
spec section 6); the concrete strings stand for the two env values. -/
def ACCESS_TOKEN_SECRET : String := "access-token-secret"

/-- Modelled from the spec: the refresh-token signing secret, distinct from the access secret. -/
def REFRESH_TOKEN_SECRET : String := "refresh-token-secret"

/-- Modelled from the spec: the access-token lifetime in seconds (accessTTL below refreshTTL). -/
def ACCESS_TOKEN_EXPIRY : Nat := 86400

/-- Modelled from the spec: the refresh-token lifetime in seconds. -/
def REFRESH_TOKEN_EXPIRY : Nat := 864000

/-- Modelled from the spec: userSchema.methods.generateAccessToken is called by the controller
but user.model.js under src/ defines only isPasswordCorrect, so the method body is missing from
the sources. Spec section 4.2: issueAccessToken(userId) signs sub and expiry now plus accessTTL
with the access-token secret; jsonwebtoken also embeds the issued-at claim. -/
def generateAccessToken (user : UserRecord) (now : Nat) : Jwt :=
  ⟨⟨user.id, now, now + ACCESS_TOKEN_EXPIRY⟩, ACCESS_TOKEN_SECRET⟩

/-- Modelled from the spec: userSchema.methods.generateRefreshToken, likewise absent from
user.model.js under src/. Spec section 4.2: signs sub and expiry now plus refreshTTL with the
refresh-token secret. -/
def generateRefreshToken (user : UserRecord) (now : Nat) : Jwt :=
  ⟨⟨user.id, now, now + REFRESH_TOKEN_EXPIRY⟩, REFRESH_TOKEN_SECRET⟩

/-- generateRefreshAndAccessToken from user.controller.js: mint the pair, assign the refresh
token onto the in-memory user document, save it (validateBeforeSave false). Only the
refreshToken path is assigned, so the pre-save dirty check sees the password as unmodified. -/
def generateRefreshAndAccessToken (db : DB) (user : UserRecord) (now : Nat) :
    (Jwt × Jwt) × DB :=
  let accessToken := generateAccessToken user now
  let refreshToken := generateRefreshToken user now
  let updatedUser := { user with refreshToken := some refreshToken }
  ((accessToken, refreshToken), userSave db updatedUser false)

/-- The ApiError utility (src/utils/apiError.js is absent from src/, its use is fixed by the
controller): an Error subclass carrying an HTTP statusCode and a message. -/
structure ApiError where
  statusCode : Nat
  message : String
deriving DecidableEq, Repr

/-- Everything a handler can throw. Only ApiError and the thrown ApiResponse carry a statusCode
property; jsonwebtoken errors, Mongoose validation errors and TypeError do not. -/
inductive HandlerError where
  | api : ApiError → HandlerError
  | jwtFailure : JwtError → HandlerError
  | validationFailure : String → HandlerError
  | apiResponseThrown : Nat → String → HandlerError
  | typeError : String → HandlerError
deriving DecidableEq, Repr

/-- HTTP status a thrown value produces. The app installs no error middleware, so the Express
fallback handler applies: it uses the statusCode property of the thrown value when present and
500 otherwise. -/
def httpStatus : HandlerError → Nat
  | .api e => e.statusCode
  | .apiResponseThrown statusCode _ => statusCode
  | .jwtFailure _ => 500
  | .validationFailure _ => 500
  | .typeError _ => 500

/-- Message carried by a thrown value (used for the error response body). -/
def errorMessage : HandlerError → String
  | .api e => e.message
  | .jwtFailure .malformed => "jwt malformed"
  | .jwtFailure .invalidSignature => "invalid signature"
  | .jwtFailure .expired => "jwt expired"
  | .validationFailure msg => "User validation failed: " ++ msg
  | .apiResponseThrown _ msg => msg
  | .typeError msg => msg

/-- Serialised JSON, restricted to the shapes the modelled handlers emit. A signed token placed
in a body is a token leaf (its encoded string), kept distinct from ordinary string leaves. -/
inductive Json where
  | null : Json
  | str : String → Json
  | num : Nat → Json
  | boolean : Bool → Json
  | token : Jwt → Json
  | obj : List (String × Json) → Json

mutual

/-- All ordinary string values occurring anywhere in a JSON document. -/
def Json.strLeaves : Json → List String
  | .str s => [s]
  | .obj fields => jsonFieldsStrLeaves fields
  | _ => []

/-- String values of a field list, in order. -/
def jsonFieldsStrLeaves : List (String × Json) → List String
  | [] => []
  | (_, v) :: rest => v.strLeaves ++ jsonFieldsStrLeaves rest

end

mutual

/-- All token values occurring anywhere in a JSON document. -/
def Json.tokenLeaves : Json → List Jwt
  | .token t => [t]
  | .obj fields => jsonFieldsTokenLeaves fields
  | _ => []

/-- Token values of a field list, in order. -/
def jsonFieldsTokenLeaves : List (String × Json) → List Jwt
  | [] => []
  | (_, v) :: rest => v.tokenLeaves ++ jsonFieldsTokenLeaves rest

end

/-- Whether the serialised document contains the given string value. -/
def Json.hasStrLeaf (s : String) (j : Json) : Bool := decide (s ∈ j.strLeaves)

/-- Whether the serialised document contains the given token. -/
def Json.hasTokenLeaf (t : Jwt) (j : Json) : Bool := decide (t ∈ j.tokenLeaves)

/-- An HTTP response: status, JSON body, cookies set and cookies cleared. -/
structure Response where
  status : Nat
  body : Json
  cookies : List (String × Jwt)
  clearedCookies : List String

/-- The ApiResponse utility (src/utils/apiResponse.js is absent from src/, its use is fixed by
the controller): wraps a payload as statusCode, data, message, success. -/
def apiResponseJson (statusCode : Nat) (data : Json) (message : String) : Json :=
  Json.obj [("statusCode", Json.num statusCode), ("data", data),
            ("message", Json.str message), ("success", Json.boolean (decide (statusCode < 400)))]

/-- Body of the Express fallback error page: the message of the thrown value. -/
def errorResponse (e : HandlerError) : Response :=
  ⟨httpStatus e, Json.obj [("message", Json.str (errorMessage e))], [], []⟩

/-- Body the client receives for a handler outcome, successful or thrown. -/
def resultBody : Except HandlerError Response → Json
  | .ok resp => resp.body
  | .error e => (errorResponse e).body

/-- Serialisation of a user document without its password and refreshToken paths: the shape of
select("-password -refreshToken"), and of a document whose password and refreshToken properties
were assigned undefined before serialisation (undefined paths are omitted from JSON). -/
def userPublicFields (u : UserRecord) : List (String × Json) :=
  [("_id", Json.num u.id), ("username", Json.str u.username), ("email", Json.str u.email),
   ("fullname", Json.str u.fullname), ("avatar", Json.str u.avatar),
   ("coverImage", Json.str u.coverImage)]

/-- Serialisation of a user document under select("-password") only: the refreshToken path stays
in the output (null when the stored value is null). -/
def userMinusPasswordFields (u : UserRecord) : List (String × Json) :=
  userPublicFields u ++
    [("refreshToken", match u.refreshToken with
      | some t => Json.token t
      | none => Json.null)]

/-- JavaScript truthiness of an optional string request field. -/
def strOptTruthy : Option String → Bool
  | none => false
  | some s => s != ""

/-- The required-field test used by registerUser and changedCurrentPassword: the field is
undefined, or trims to the empty string. -/
def missingOrBlank : Option String → Bool
  | none => true
  | some s => jsTrim s == ""

/-- Result of the blob-storage uploader. -/
structure UploadResult where
  url : String
deriving DecidableEq, Repr

/-- Modelled from the spec: uploadOnCloudinary (src/utils/cloudinary.js is absent from src/),
the blob-storage uploader of spec section 1: accepts a local file path and returns a public URL,
and returns null when it is given no path. -/
def uploadOnCloudinary (localFilePath : Option String) : Option UploadResult :=
  match localFilePath with
  | some p => some ⟨"https://res.cloudinary.example/" ++ p⟩
  | none => none

/-- The argument object registerUser passes to User.create, with the property keys it uses.
The key fullName (capital N) is the literal key in the controller; it is not a schema path of
user.model.js, which declares fullname. -/
structure CreateUserInput where
  username : String
  fullName : String
  email : String
  avatar : String
  coverImage : String
  password : String
deriving DecidableEq, Repr

/-- A Mongoose document under construction: each schema path is either set or unset. -/
structure RawUserDoc where
  username : Option String
  email : Option String
  fullname : Option String
  avatar : Option String
  coverImage : Option String
  password : Option String
deriving DecidableEq, Repr

/-- Document Mongoose builds from the create input. Strict mode (the default) keeps schema paths
only: the input key fullName is not a schema path, so it is dropped and the fullname path is
never assigned. The lowercase and trim setters of username and email apply. -/
def toRawUserDoc (inp : CreateUserInput) : RawUserDoc :=
  ⟨some (jsTrim (jsToLower inp.username)), some (jsTrim (jsToLower inp.email)), none,
   some inp.avatar, some inp.coverImage, some inp.password⟩

/-- Required-path validation of userSchema, run by create before the insert: the first missing
required path yields its schema message. -/
def requiredValidationError (doc : RawUserDoc) : Option String :=
  if doc.username = none then some "Username is required"
  else if doc.email = none then some "Email is required"
  else if doc.fullname = none then some "Full Name is required"
  else if doc.avatar = none then some "Avatar is required"
  else if doc.password = none then some "Password is required"
  else none

/-- Next _id for an insert. -/
def freshId (db : DB) : Nat := List.foldr (fun u acc => max u.id acc) 0 db + 1

/-- User.create: build the document from the input under the schema, validate required paths,
run the pre-save hook (the password path of a new document counts as modified, so it is hashed)
and insert. -/
def User_create (db : DB) (inp : CreateUserInput) : Except HandlerError (UserRecord × DB) :=
  let doc := toRawUserDoc inp
  match requiredValidationError doc with
  | some msg => .error (.validationFailure msg)
  | none =>
    let newUser : UserRecord :=
      ⟨freshId db, doc.username.getD "", doc.email.getD "", doc.fullname.getD "",
       doc.avatar.getD "", doc.coverImage.getD "", doc.password.getD "", none⟩
    let saved := preSaveHook newUser true
    .ok (saved, db ++ [saved])

/-- A registration request: the four body fields and the uploaded file paths multer extracted. -/
structure RegisterReq where
  username : Option String
  fullname : Option String
  email : Option String
  password : Option String
  avatarFilePath : Option String
  coverImageFilePath : Option String
deriving DecidableEq, Repr

/-- registerUser from user.controller.js. The unlink of the uploaded files in the conflict
branch is a filesystem effect outside the model. -/
def registerUser (req : RegisterReq) (db : DB) : Except HandlerError Response × DB :=
  if missingOrBlank req.username || missingOrBlank req.fullname ||
      missingOrBlank req.email || missingOrBlank req.password then
    (.error (.api ⟨400, "Required fields cannot be empty"⟩), db)
  else
    match req.avatarFilePath with
    | none => (.error (.api ⟨400, "Missing avatar image path"⟩), db)
    | some avatarLocalPath =>
      match findOneByUsernameOrEmail db req.username req.email with
      | some _ => (.error (.api ⟨409, "User already exists"⟩), db)
      | none =>
        match uploadOnCloudinary (some avatarLocalPath) with
        | none => (.error (.api ⟨400, "Avatar upload failed"⟩), db)
        | some avatar =>
          let coverImage := uploadOnCloudinary req.coverImageFilePath
          let createInput : CreateUserInput :=
            ⟨jsToLower (req.username.getD ""), req.fullname.getD "", jsToLower (req.email.getD ""),
             avatar.url, (coverImage.map UploadResult.url).getD "", req.password.getD ""⟩
          match User_create db createInput with
          | .error e => (.error e, db)
          | .ok (newUser, db2) =>
            match findById db2 newUser.id with
            | none =>
              (.error (.api ⟨500, "Something went wrong while registering the user"⟩), db2)
            | some createdUser =>
              (.ok ⟨201, apiResponseJson 201 (Json.obj (userPublicFields createdUser))
                "User registered successfully", [], []⟩, db2)

/-- A login request body. -/
structure LoginReq where
  username : Option String
  email : Option String
  password : Option String
deriving DecidableEq, Repr

/-- loginUser from user.controller.js. After minting, the in-memory document gets its password
and refreshToken properties assigned undefined, so the serialised user carries neither. -/
def loginUser (req : LoginReq) (db : DB) (now : Nat) : Except HandlerError Response × DB :=
  if !(strOptTruthy req.username || strOptTruthy req.email) then
    (.error (.api ⟨400, "username or email is required"⟩), db)
  else if !(strOptTruthy req.password) then
    (.error (.api ⟨400, "password is required"⟩), db)
  else
    match findOneByUsernameOrEmail db req.username req.email with
    | none => (.error (.api ⟨404, "User does not exist"⟩), db)
    | some existingUser =>
      if !(isPasswordCorrect existingUser (req.password.getD "")) then
        (.error (.api ⟨401, "Invalid user credentials"⟩), db)
      else
        let minted := generateRefreshAndAccessToken db existingUser now
        (.ok ⟨200,
          apiResponseJson 200
            (Json.obj [("user", Json.obj (userPublicFields existingUser)),
                       ("accessToken", Json.token minted.1.1),
                       ("refreshToken", Json.token minted.1.2)])
            "User logged in successfully",
          [("accessToken", minted.1.1), ("refreshToken", minted.1.2)], []⟩, minted.2)

/-- logoutUser from user.controller.js: findByIdAndUpdate sets the refreshToken path of the
authenticated user to null, then both cookies are cleared. -/
def logoutUser (uid : Nat) (db : DB) : Except HandlerError Response × DB :=
  let db2 := dbUpdateById db uid (fun u => { u with refreshToken := none })
  (.ok ⟨200, apiResponseJson 200 (Json.obj []) "User logged out successfully",
    [], ["accessToken", "refreshToken"]⟩, db2)

/-- A refresh request: the token may come from the cookie store or the body. -/
structure RefreshReq where
  cookieRefreshToken : Option PresentedToken
  bodyRefreshToken : Option PresentedToken
deriving DecidableEq, Repr

/-- refreshAccessToken from user.controller.js. jwt.verify is called outside any try block, so
its failures propagate as thrown JsonWebTokenError values, not as ApiError. -/
def refreshAccessToken (req : RefreshReq) (db : DB) (now : Nat) :
    Except HandlerError Response × DB :=
  let requestRefreshToken := jsOrToken req.cookieRefreshToken req.bodyRefreshToken
  match jsTruthyToken requestRefreshToken with
  | none => (.error (.api ⟨401, "Unauthorized request"⟩), db)
  | some presented =>
    match jwtVerify presented REFRESH_TOKEN_SECRET now with
    | .error e => (.error (.jwtFailure e), db)
    | .ok decodedToken =>
      match findById db decodedToken.sub with
      | none => (.error (.api ⟨401, "Invalid refresh token"⟩), db)
      | some existingUser =>
        if !(tokenStringEq presented existingUser.refreshToken) then
          (.error (.api ⟨401, "Refresh token is expired or used!"⟩), db)
        else
          let minted := generateRefreshAndAccessToken db existingUser now
          (.ok ⟨200,
            apiResponseJson 200
              (Json.obj [("accessToken", Json.token minted.1.1),
                         ("refreshToken", Json.token minted.1.2)])
              "Access token refreshed successfully.",
            [("accessToken", minted.1.1), ("refreshToken", minted.1.2)], []⟩, minted.2)

/-- A password-change request body. -/
structure ChangePasswordReq where
  oldPassword : Option String
  newPassword : Option String
  confirmPassword : Option String
deriving DecidableEq, Repr

/-- Truthiness of the un-awaited call existingUser.isPasswordCorrect(oldPassword) in
changedCurrentPassword: the call returns a Promise and is not awaited, and a Promise object is
truthy whatever Boolean it resolves to, so the guard sees true regardless of the argument. -/
def unawaitedPromiseTruthy (resolvesTo : Bool) : Bool := true

/-- changedCurrentPassword from user.controller.js. Note the two slips kept by the model: the
confirm-password mismatch throws an ApiResponse, not an ApiError, and the old-password check is
not awaited. -/
def changedCurrentPassword (uid : Nat) (req : ChangePasswordReq) (db : DB) :
    Except HandlerError Response × DB :=
  if missingOrBlank req.oldPassword || missingOrBlank req.newPassword ||
      missingOrBlank req.confirmPassword then
    (.error (.api ⟨400, "Required fields cannot be empty"⟩), db)
  else if req.newPassword ≠ req.confirmPassword then
    (.error (.apiResponseThrown 400 "Confirm password is not same as new password"), db)
  else
    match findById db uid with
    | none => (.error (.typeError "Cannot read properties of null"), db)
    | some existingUser =>
      if !(unawaitedPromiseTruthy (isPasswordCorrect existingUser (req.oldPassword.getD ""))) then
        (.error (.api ⟨400, "Invalid old password"⟩), db)
      else
        let existingUser2 := { existingUser with password := req.newPassword.getD "" }
        (.ok ⟨200, apiResponseJson 200 (Json.obj []) "Password updated successfully.", [], []⟩,
          userSave db existingUser2 true)

/-- Modelled from the spec: the verifyJWT middleware (src/middlewares/auth.middleware.js is
absent from src/) attaches the already-authenticated identity to the request; spec section 4.5
calls the current-user fetch a pass-through of that identity. The attached record carries the
public profile paths and neither the password nor the refreshToken path; an unauthenticated
request is rejected with 401 before the handler runs. -/
def verifyJWTAttachedUser (db : DB) (uid : Nat) : Option Json :=
  (findById db uid).map (fun u => Json.obj (userPublicFields u))

/-- getCurrentUser from user.controller.js: serialises the user the middleware attached. -/
def getCurrentUser (uid : Nat) (db : DB) : Except HandlerError Response × DB :=
  match verifyJWTAttachedUser db uid with
  | none => (.error (.api ⟨401, "Invalid access token"⟩), db)
  | some userJson =>
    (.ok ⟨200, apiResponseJson 200 (Json.obj [("user", userJson)])
      "Current user fetch successfully.", [], []⟩, db)

/-- updateAccountDetails from user.controller.js. The $set uses the key fullName, which is not a
schema path, so strict mode drops it and only email is updated. The returned document is under
select("-password") only: its refreshToken path stays in the response. -/
def updateAccountDetails (uid : Nat) (fullname email : Option String) (db : DB) :
    Except HandlerError Response × DB :=
  if !(strOptTruthy fullname) || !(strOptTruthy email) then
    (.error (.api ⟨400, "Required fields cannot be empty!"⟩), db)
  else
    let db2 := dbUpdateById db uid (fun u => { u with email := email.getD "" })
    let updatedUser := findById db2 uid
    (.ok ⟨200,
      apiResponseJson 200
        (Json.obj [("user", match updatedUser with
          | some u => Json.obj (userMinusPasswordFields u)
          | none => Json.null)])
        "Account details updated successfully!", [], []⟩, db2)

/-- asyncHandler from src/unnamed/part_002. The body of the outer arrow function is a block:
it contains the inner (req, res, next) arrow function as a bare expression statement and has no
return statement, so the call evaluates to undefined (none here), not to the inner function. -/
def asyncHandler {Req Res : Type} (requestHandler : Req → Res → (HandlerError → Unit) → Unit) :
    Option (Req → Res → (HandlerError → Unit) → Unit) :=
  let innerHandler : Req → Res → (HandlerError → Unit) → Unit :=
    fun req res next => requestHandler req res next
  none

/-- The modelled operations of the service (the credential and token core of the spec). -/
inductive Operation where
  | register : RegisterReq → Operation
  | login : LoginReq → Operation
  | logout : Nat → Operation
  | refresh : RefreshReq → Operation
  | changePassword : Nat → ChangePasswordReq → Operation
  | currentUser : Nat → Operation
  | updateAccount : Nat → Option String → Option String → Operation

/-- Dispatch one request against the store. -/
def runOperation (db : DB) (now : Nat) : Operation → Except HandlerError Response × DB
  | .register req => registerUser req db
  | .login req => loginUser req db now
  | .logout uid => logoutUser uid db
  | .refresh req => refreshAccessToken req db now
  | .changePassword uid req => changedCurrentPassword uid req db
  | .currentUser uid => getCurrentUser uid db
  | .updateAccount uid fullname email => updateAccountDetails uid fullname email db

/-- A stored user whose password is a bcrypt hash and whose other string paths are not
hash-shaped (usernames, emails, names and URLs do not open with the bcrypt tag). -/
def UserStringsWellformed (u : UserRecord) : Prop :=
  hashShaped u.password = true ∧ hashShaped u.username = false ∧ hashShaped u.email = false ∧
  hashShaped u.fullname = false ∧ hashShaped u.avatar = false ∧ hashShaped u.coverImage = false

/-- Every stored record is well-formed in the above sense. -/
def DbWellformed (db : DB) : Prop := ∀ u ∈ db, UserStringsWellformed u

/-- An optional request string that is not hash-shaped when present. -/
def optNonHash : Option String → Prop
  | none => True
  | some s => hashShaped s = false

/-- Request strings that end up echoed in a response body are not hash-shaped: only the email of
updateAccountDetails is echoed. -/
def OpWellformed : Operation → Prop
  | .updateAccount _ _ email => optNonHash email
  | _ => True

/-- Whether a handler outcome is a success response rather than a thrown value. -/
def isOk : Except HandlerError Response → Bool
  | .ok _ => true
  | .error _ => false

/-! Helper lemmas shared by the claim theorems. -/

/-- Looking an _id up after an update keyed by that _id sees the updated record, provided the
update preserves the _id. -/
theorem findById_dbUpdateById (db : DB) (i : Nat) (f : UserRecord → UserRecord)
    (hf : ∀ w : UserRecord, w.id = i → (f w).id = i) :
    findById (dbUpdateById db i f) i = Option.map f (findById db i) := by
  induction db with
  | nil => rfl
  | cons w rest ih =>
    by_cases hwi : w.id = i
    · have hfi : ((f w).id == i) = true := beq_iff_eq.mpr (hf w hwi)
      simp [dbUpdateById, findById, List.find?_cons, hwi, hfi]
    · simpa [dbUpdateById, findById, List.find?_cons, hwi] using ih

/-- Writing a document back and re-reading its _id yields that document, provided a record with
that _id is stored. -/
theorem findById_dbReplace (db : DB) (doc w : UserRecord)
    (hw : findById db doc.id = some w) :
    findById (dbReplace db doc) doc.id = some doc := by
  have h := findById_dbUpdateById db doc.id (fun _ => doc) (fun _ _ => rfl)
  rw [dbReplace, h, hw]
  rfl

/-- The record a findById returns carries the _id that was looked up. -/
theorem findById_id (db : DB) (i : Nat) (u : UserRecord) (h : findById db i = some u) :
    u.id = i := by
  have := List.find?_some h
  exact beq_iff_eq.mp this

/-- A bcrypt hash is hash-shaped. -/
theorem hashShaped_bcryptHash (p : String) : hashShaped (bcryptHash p) = true := by
  simp [hashShaped, bcryptHash, hashTagChars]

/-! Claim theorems. -/

/-- C10: for every request handler f, asyncHandler f evaluates to undefined (none) rather than
to a function: the wrapper declares the inner (req, res, next) arrow function but never returns
it, so every wrapped route handler is undefined at registration time. -/
theorem asyncHandler_returns_undefined {Req Res : Type}
    (f : Req → Res → (HandlerError → Unit) → Unit) :
    asyncHandler f = none := rfl

/-- Witness for C10 at a concrete handler. -/
theorem asyncHandler_returns_undefined_witness :
    asyncHandler (fun (_ : Nat) (_ : Nat) (_ : HandlerError → Unit) => ()) = none :=
  asyncHandler_returns_undefined (fun _ _ _ => ())

/-- C7, evaluated at the failing inputs: a refresh request with no token fails with ApiError 401
Unauthorized request as claimed, but a malformed, tampered or expired token makes jwt.verify
throw a JsonWebTokenError, which carries no statusCode and is mapped to HTTP 500, not 401. -/
theorem refreshAccessToken_error_classification :
    (refreshAccessToken ⟨none, none⟩ [] 50).1 = .error (.api ⟨401, "Unauthorized request"⟩) ∧
    httpStatus (.api ⟨401, "Unauthorized request"⟩) = 401 ∧
    (refreshAccessToken ⟨some (.rawStr "not-a-jwt"), none⟩ [] 50).1
      = .error (.jwtFailure .malformed) ∧
    (refreshAccessToken ⟨some (.jwtStr ⟨⟨1, 0, 1000⟩, "attacker-secret"⟩), none⟩ [] 50).1
      = .error (.jwtFailure .invalidSignature) ∧
    (refreshAccessToken ⟨some (.jwtStr ⟨⟨1, 0, 40⟩, REFRESH_TOKEN_SECRET⟩), none⟩ [] 50).1
      = .error (.jwtFailure .expired) ∧
    httpStatus (.jwtFailure .malformed) = 500 ∧
    httpStatus (.jwtFailure .invalidSignature) = 500 ∧
    httpStatus (.jwtFailure .expired) = 500 :=
  ⟨rfl, rfl, rfl, rfl, rfl, rfl, rfl, rfl⟩

/-- C4, evaluated at a failing input: the old-password check in changedCurrentPassword is not
awaited, so a wrong old password is accepted: the request succeeds with 200 and the stored hash
is replaced by the hash of the new password. -/
theorem changedCurrentPassword_accepts_wrong_old_password :
    isPasswordCorrect
      ⟨1, "alice", "alice@x.com", "alice wonderland", "avatar.png", "",
        bcryptHash "Secret123!", none⟩ "wrong-password" = false ∧
    (changedCurrentPassword 1 ⟨some "wrong-password", some "NewSecret456!", some "NewSecret456!"⟩
        [⟨1, "alice", "alice@x.com", "alice wonderland", "avatar.png", "",
          bcryptHash "Secret123!", none⟩]).1
      = .ok ⟨200, apiResponseJson 200 (Json.obj []) "Password updated successfully.", [], []⟩ ∧
    findById (changedCurrentPassword 1
        ⟨some "wrong-password", some "NewSecret456!", some "NewSecret456!"⟩
        [⟨1, "alice", "alice@x.com", "alice wonderland", "avatar.png", "",
          bcryptHash "Secret123!", none⟩]).2 1
      = some ⟨1, "alice", "alice@x.com", "alice wonderland", "avatar.png", "",
          bcryptHash "NewSecret456!", none⟩ :=
  ⟨by decide, rfl, by decide⟩

/-- C8, evaluated at a failing input: a registration request with a fresh identity, non-empty
fields and an uploaded avatar does not return 201; User.create rejects the document because the
controller passes the key fullName while the schema declares the required path fullname, so the
built document never carries fullname and required validation fails. -/
theorem registerUser_rejects_valid_fresh_registration :
    (toRawUserDoc ⟨"alice", "Alice Wonderland", "alice@x.com",
        "https://res.cloudinary.example/tmp-avatar.png", "", "Secret123!"⟩).fullname = none ∧
    registerUser
        ⟨some "Alice", some "Alice Wonderland", some "alice@x.com", some "Secret123!",
          some "tmp-avatar.png", none⟩ []
      = (.error (.validationFailure "Full Name is required"), ([] : DB)) :=
  ⟨rfl, rfl⟩

/-- C9: the pre-save hook hashes only when the password path is modified: a save with the
password unmodified persists the document as it is, a save with it modified persists its hash;
in particular the save done by generateRefreshAndAccessToken (which assigns only refreshToken)
leaves the password of every stored record unchanged, except that the record of the saved user
carries exactly the fetched document's password. -/
theorem preSaveHook_hashes_only_when_modified (db : DB) (u w : UserRecord) (now : Nat) :
    preSaveHook w false = w ∧
    (preSaveHook w true).password = bcryptHash w.password ∧
    (generateRefreshAndAccessToken db u now).2.map UserRecord.password
      = db.map (fun v => if v.id == u.id then u.password else v.password) := by
  refine ⟨rfl, rfl, ?_⟩
  simp only [generateRefreshAndAccessToken, userSave, dbReplace, dbUpdateById, preSaveHook,
    Bool.false_eq_true, if_false, List.map_map]
  apply List.map_congr_left
  intro v _
  by_cases hv : v.id = u.id <;> simp [hv]

/-- C6: a refresh request that fails, for whatever reason, leaves the store exactly as it was:
every throwing branch of refreshAccessToken precedes the save. -/
theorem refreshAccessToken_failure_preserves_store (req : RefreshReq) (db : DB) (now : Nat)
    (e : HandlerError) (h : (refreshAccessToken req db now).1 = .error e) :
    (refreshAccessToken req db now).2 = db := by
  unfold refreshAccessToken at h ⊢
  cases hjs : jsTruthyToken (jsOrToken req.cookieRefreshToken req.bodyRefreshToken) with
  | none => simp [hjs]
  | some presented =>
    simp only [hjs] at h ⊢
    cases hv : jwtVerify presented REFRESH_TOKEN_SECRET now with
    | error e2 => simp [hv]
    | ok payload =>
      simp only [hv] at h ⊢
      cases hf : findById db payload.sub with
      | none => simp [hf]
      | some u =>
        simp only [hf] at h ⊢
        cases hm : tokenStringEq presented u.refreshToken with
        | false => simp [hm]
        | true => simp [hm] at h

/-- Witness for C6: a concrete failing refresh (no token presented) leaves a concrete store
untouched. -/
theorem refreshAccessToken_failure_preserves_store_witness :
    (refreshAccessToken ⟨none, none⟩
        [⟨1, "alice", "alice@x.com", "alice wonderland", "avatar.png", "",
          bcryptHash "Secret123!", none⟩] 77).2
      = [⟨1, "alice", "alice@x.com", "alice wonderland", "avatar.png", "",
          bcryptHash "Secret123!", none⟩] :=
  refreshAccessToken_failure_preserves_store ⟨none, none⟩
    [⟨1, "alice", "alice@x.com", "alice wonderland", "avatar.png", "",
      bcryptHash "Secret123!", none⟩] 77
    (.api ⟨401, "Unauthorized request"⟩) rfl

/-- Success path of refreshAccessToken: a structurally valid, unexpired refresh token that
matches the stored value mints a new pair and saves the user document with the new refresh
token (password unmodified). -/
theorem refreshAccessToken_success (db : DB) (r : Jwt) (u : UserRecord) (now : Nat)
    (hsec : r.secret = REFRESH_TOKEN_SECRET)
    (hexp : now < r.payload.exp)
    (hfind : findById db r.payload.sub = some u)
    (hstored : u.refreshToken = some r) :
    refreshAccessToken ⟨some (.jwtStr r), none⟩ db now
      = (.ok ⟨200,
          apiResponseJson 200
            (Json.obj [("accessToken", Json.token (generateAccessToken u now)),
                       ("refreshToken", Json.token (generateRefreshToken u now))])
            "Access token refreshed successfully.",
          [("accessToken", generateAccessToken u now),
           ("refreshToken", generateRefreshToken u now)], []⟩,
        dbReplace db { u with refreshToken := some (generateRefreshToken u now) }) := by
  unfold refreshAccessToken
  simp [jsOrToken, jsTruthyToken, tokenStringTruthy, jwtVerify, hsec, hexp, hfind, hstored,
    tokenStringEq, generateRefreshAndAccessToken, userSave, preSaveHook]

/-- C1: refresh rotation is single-use: presenting the currently persisted refresh token r at a
later instant succeeds and persists a fresh token distinct from r; presenting r again while the
fresh token is the persisted value fails with ApiError 401 Refresh token is expired or used!. -/
theorem refresh_rotation_single_use (db : DB) (u : UserRecord) (r : Jwt) (t1 t2 : Nat)
    (hfind : findById db r.payload.sub = some u)
    (hstored : u.refreshToken = some r)
    (hsec : r.secret = REFRESH_TOKEN_SECRET)
    (hexp1 : t1 < r.payload.exp)
    (hiat : r.payload.iat ≠ t1)
    (hexp2 : t2 < r.payload.exp) :
    isOk (refreshAccessToken ⟨some (.jwtStr r), none⟩ db t1).1 = true ∧
    findById (refreshAccessToken ⟨some (.jwtStr r), none⟩ db t1).2 r.payload.sub
      = some { u with refreshToken := some (generateRefreshToken u t1) } ∧
    generateRefreshToken u t1 ≠ r ∧
    (refreshAccessToken ⟨some (.jwtStr r), none⟩
        (refreshAccessToken ⟨some (.jwtStr r), none⟩ db t1).2 t2).1
      = .error (.api ⟨401, "Refresh token is expired or used!"⟩) ∧
    httpStatus (.api ⟨401, "Refresh token is expired or used!"⟩) = 401 := by
  have hid : u.id = r.payload.sub := findById_id db r.payload.sub u hfind
  have hsucc := refreshAccessToken_success db r u t1 hsec hexp1 hfind hstored
  have hne : generateRefreshToken u t1 ≠ r := by
    intro hcontra
    apply hiat
    rw [← hcontra]
    rfl
  have hfindu : findById db ({ u with refreshToken := some (generateRefreshToken u t1) } :
      UserRecord).id = some u := by
    show findById db u.id = some u
    rw [hid, hfind]
  have hrepl : findById
      (dbReplace db { u with refreshToken := some (generateRefreshToken u t1) }) r.payload.sub
      = some { u with refreshToken := some (generateRefreshToken u t1) } := by
    rw [← hid]
    exact findById_dbReplace db _ u hfindu
  have hfind2 : findById (refreshAccessToken ⟨some (.jwtStr r), none⟩ db t1).2 r.payload.sub
      = some { u with refreshToken := some (generateRefreshToken u t1) } := by
    rw [hsucc]
    exact hrepl
  refine ⟨by rw [hsucc]; rfl, hfind2, hne, ?_, rfl⟩
  have hner : (r == generateRefreshToken u t1) = false :=
    beq_eq_false_iff_ne.mpr (fun h => hne h.symm)
  rw [hsucc]
  simp [refreshAccessToken, jsOrToken, jsTruthyToken, tokenStringTruthy, jwtVerify, hsec, hexp2,
    hrepl, tokenStringEq, hner]

/-- Witness for C1 at a concrete store, user and token. -/
theorem refresh_rotation_single_use_witness :
    isOk (refreshAccessToken
        ⟨some (.jwtStr ⟨⟨1, 10, 864010⟩, REFRESH_TOKEN_SECRET⟩), none⟩
        [⟨1, "alice", "alice@x.com", "alice wonderland", "avatar.png", "",
          bcryptHash "Secret123!", some ⟨⟨1, 10, 864010⟩, REFRESH_TOKEN_SECRET⟩⟩] 20).1 = true ∧
    findById (refreshAccessToken
        ⟨some (.jwtStr ⟨⟨1, 10, 864010⟩, REFRESH_TOKEN_SECRET⟩), none⟩
        [⟨1, "alice", "alice@x.com", "alice wonderland", "avatar.png", "",
          bcryptHash "Secret123!", some ⟨⟨1, 10, 864010⟩, REFRESH_TOKEN_SECRET⟩⟩] 20).2 1
      = some ⟨1, "alice", "alice@x.com", "alice wonderland", "avatar.png", "",
          bcryptHash "Secret123!", some ⟨⟨1, 20, 864020⟩, REFRESH_TOKEN_SECRET⟩⟩ ∧
    (⟨⟨1, 20, 864020⟩, REFRESH_TOKEN_SECRET⟩ : Jwt)
      ≠ (⟨⟨1, 10, 864010⟩, REFRESH_TOKEN_SECRET⟩ : Jwt) ∧
    (refreshAccessToken ⟨some (.jwtStr ⟨⟨1, 10, 864010⟩, REFRESH_TOKEN_SECRET⟩), none⟩
        (refreshAccessToken ⟨some (.jwtStr ⟨⟨1, 10, 864010⟩, REFRESH_TOKEN_SECRET⟩), none⟩
          [⟨1, "alice", "alice@x.com", "alice wonderland", "avatar.png", "",
            bcryptHash "Secret123!", some ⟨⟨1, 10, 864010⟩, REFRESH_TOKEN_SECRET⟩⟩] 20).2 30).1
      = .error (.api ⟨401, "Refresh token is expired or used!"⟩) ∧
    httpStatus (.api ⟨401, "Refresh token is expired or used!"⟩) = 401 :=
  refresh_rotation_single_use
    [⟨1, "alice", "alice@x.com", "alice wonderland", "avatar.png", "",
      bcryptHash "Secret123!", some ⟨⟨1, 10, 864010⟩, REFRESH_TOKEN_SECRET⟩⟩]
    ⟨1, "alice", "alice@x.com", "alice wonderland", "avatar.png", "",
      bcryptHash "Secret123!", some ⟨⟨1, 10, 864010⟩, REFRESH_TOKEN_SECRET⟩⟩
    ⟨⟨1, 10, 864010⟩, REFRESH_TOKEN_SECRET⟩ 20 30
    (by decide) (by decide) (by decide) (by decide) (by decide) (by decide)

/-- C2: logout clears the persisted refresh token, and afterwards a refresh request presenting
any previously issued refresh token for that user fails with HTTP 401 even though the token has
a valid signature and has not structurally expired. -/
theorem logout_revokes_refresh (db : DB) (uid : Nat) (u : UserRecord) (r : Jwt) (now : Nat)
    (hu : findById db uid = some u)
    (hsub : r.payload.sub = uid)
    (hsec : r.secret = REFRESH_TOKEN_SECRET)
    (hexp : now < r.payload.exp) :
    findById (logoutUser uid db).2 uid = some { u with refreshToken := none } ∧
    (refreshAccessToken ⟨some (.jwtStr r), none⟩ (logoutUser uid db).2 now).1
      = .error (.api ⟨401, "Refresh token is expired or used!"⟩) ∧
    httpStatus (.api ⟨401, "Refresh token is expired or used!"⟩) = 401 := by
  have hfind2 : findById (logoutUser uid db).2 uid = some { u with refreshToken := none } := by
    show findById (dbUpdateById db uid (fun v => { v with refreshToken := none })) uid = _
    rw [findById_dbUpdateById db uid (fun v => { v with refreshToken := none })
      (fun w hw => hw), hu]
    rfl
  have hfind3 : findById (logoutUser uid db).2 r.payload.sub
      = some { u with refreshToken := none } := by rw [hsub, hfind2]
  refine ⟨hfind2, ?_, rfl⟩
  simp [refreshAccessToken, jsOrToken, jsTruthyToken, tokenStringTruthy, jwtVerify, hsec, hexp,
    hfind3, tokenStringEq]

/-- Witness for C2 at a concrete store, user and token. -/
theorem logout_revokes_refresh_witness :
    findById (logoutUser 1
        [⟨1, "alice", "alice@x.com", "alice wonderland", "avatar.png", "",
          bcryptHash "Secret123!", some ⟨⟨1, 10, 864010⟩, REFRESH_TOKEN_SECRET⟩⟩]).2 1
      = some ⟨1, "alice", "alice@x.com", "alice wonderland", "avatar.png", "",
          bcryptHash "Secret123!", none⟩ ∧
    (refreshAccessToken ⟨some (.jwtStr ⟨⟨1, 10, 864010⟩, REFRESH_TOKEN_SECRET⟩), none⟩
        (logoutUser 1
          [⟨1, "alice", "alice@x.com", "alice wonderland", "avatar.png", "",
            bcryptHash "Secret123!", some ⟨⟨1, 10, 864010⟩, REFRESH_TOKEN_SECRET⟩⟩]).2 20).1
      = .error (.api ⟨401, "Refresh token is expired or used!"⟩) ∧
    httpStatus (.api ⟨401, "Refresh token is expired or used!"⟩) = 401 :=
  logout_revokes_refresh
    [⟨1, "alice", "alice@x.com", "alice wonderland", "avatar.png", "",
      bcryptHash "Secret123!", some ⟨⟨1, 10, 864010⟩, REFRESH_TOKEN_SECRET⟩⟩]
    1
    ⟨1, "alice", "alice@x.com", "alice wonderland", "avatar.png", "",
      bcryptHash "Secret123!", some ⟨⟨1, 10, 864010⟩, REFRESH_TOKEN_SECRET⟩⟩
    ⟨⟨1, 10, 864010⟩, REFRESH_TOKEN_SECRET⟩ 20
    (by decide) (by decide) (by decide) (by decide)

/-- C3: a login request with valid credentials (a stored user found by the given username or
email whose stored hash verifies the given password) mints an access token signed with the
access-token secret and a refresh token signed with the distinct refresh-token secret, each
carrying the subject and expiry claims, persists the refresh token onto the user record, and
returns both tokens in the response body. -/
theorem login_issues_and_persists_token_pair (db : DB) (req : LoginReq) (u : UserRecord)
    (p : String) (now : Nat)
    (hident : (strOptTruthy req.username || strOptTruthy req.email) = true)
    (hpw : req.password = some p)
    (hp : p ≠ "")
    (hfound : findOneByUsernameOrEmail db req.username req.email = some u)
    (hverify : isPasswordCorrect u p = true) :
    (loginUser req db now).1
      = .ok ⟨200,
          apiResponseJson 200
            (Json.obj [("user", Json.obj (userPublicFields u)),
                       ("accessToken", Json.token (generateAccessToken u now)),
                       ("refreshToken", Json.token (generateRefreshToken u now))])
            "User logged in successfully",
          [("accessToken", generateAccessToken u now),
           ("refreshToken", generateRefreshToken u now)], []⟩ ∧
    (generateAccessToken u now).secret = ACCESS_TOKEN_SECRET ∧
    (generateRefreshToken u now).secret = REFRESH_TOKEN_SECRET ∧
    ACCESS_TOKEN_SECRET ≠ REFRESH_TOKEN_SECRET ∧
    (generateAccessToken u now).payload.sub = u.id ∧
    (generateAccessToken u now).payload.exp = now + ACCESS_TOKEN_EXPIRY ∧
    (generateRefreshToken u now).payload.sub = u.id ∧
    (generateRefreshToken u now).payload.exp = now + REFRESH_TOKEN_EXPIRY ∧
    Json.hasTokenLeaf (generateAccessToken u now) (resultBody (loginUser req db now).1) = true ∧
    Json.hasTokenLeaf (generateRefreshToken u now) (resultBody (loginUser req db now).1) = true ∧
    findById (loginUser req db now).2 u.id
      = some { u with refreshToken := some (generateRefreshToken u now) } := by
  have hpt : strOptTruthy req.password = true := by
    rw [hpw]
    simp [strOptTruthy, hp]
  have hrun : loginUser req db now
      = (.ok ⟨200,
          apiResponseJson 200
            (Json.obj [("user", Json.obj (userPublicFields u)),
                       ("accessToken", Json.token (generateAccessToken u now)),
                       ("refreshToken", Json.token (generateRefreshToken u now))])
            "User logged in successfully",
          [("accessToken", generateAccessToken u now),
           ("refreshToken", generateRefreshToken u now)], []⟩,
        dbReplace db { u with refreshToken := some (generateRefreshToken u now) }) := by
    unfold loginUser
    rw [hident]
    rw [hpt]
    simp [hfound, hpw, hverify, generateRefreshAndAccessToken, userSave, preSaveHook]
  have hmem : u ∈ db := List.mem_of_find?_eq_some hfound
  have hsome : (findById db u.id).isSome := by
    apply List.find?_isSome.mpr
    exact ⟨u, hmem, by simp⟩
  obtain ⟨w, hw⟩ := Option.isSome_iff_exists.mp hsome
  have hpersist : findById (loginUser req db now).2 u.id
      = some { u with refreshToken := some (generateRefreshToken u now) } := by
    rw [hrun]
    exact findById_dbReplace db _ w hw
  refine ⟨by rw [hrun], rfl, rfl, by decide, rfl, rfl, rfl, rfl, ?_, ?_, hpersist⟩
  · rw [hrun]
    simp [resultBody, Json.hasTokenLeaf, Json.tokenLeaves, jsonFieldsTokenLeaves,
      apiResponseJson, userPublicFields]
  · rw [hrun]
    simp [resultBody, Json.hasTokenLeaf, Json.tokenLeaves, jsonFieldsTokenLeaves,
      apiResponseJson, userPublicFields]

/-- Witness for C3 at a concrete store and request. -/
theorem login_issues_and_persists_token_pair_witness :
    (loginUser ⟨some "alice", none, some "Secret123!"⟩
        [⟨1, "alice", "alice@x.com", "alice wonderland", "avatar.png", "",
          bcryptHash "Secret123!", none⟩] 40).1
      = .ok ⟨200,
          apiResponseJson 200
            (Json.obj [("user", Json.obj (userPublicFields
                          ⟨1, "alice", "alice@x.com", "alice wonderland", "avatar.png", "",
                            bcryptHash "Secret123!", none⟩)),
                       ("accessToken", Json.token ⟨⟨1, 40, 86440⟩, ACCESS_TOKEN_SECRET⟩),
                       ("refreshToken", Json.token ⟨⟨1, 40, 864040⟩, REFRESH_TOKEN_SECRET⟩)])
            "User logged in successfully",
          [("accessToken", ⟨⟨1, 40, 86440⟩, ACCESS_TOKEN_SECRET⟩),
           ("refreshToken", ⟨⟨1, 40, 864040⟩, REFRESH_TOKEN_SECRET⟩)], []⟩ ∧
    (⟨⟨1, 40, 86440⟩, ACCESS_TOKEN_SECRET⟩ : Jwt).secret = ACCESS_TOKEN_SECRET ∧
    (⟨⟨1, 40, 864040⟩, REFRESH_TOKEN_SECRET⟩ : Jwt).secret = REFRESH_TOKEN_SECRET ∧
    ACCESS_TOKEN_SECRET ≠ REFRESH_TOKEN_SECRET ∧
    (⟨⟨1, 40, 86440⟩, ACCESS_TOKEN_SECRET⟩ : Jwt).payload.sub = 1 ∧
    (⟨⟨1, 40, 86440⟩, ACCESS_TOKEN_SECRET⟩ : Jwt).payload.exp = 40 + ACCESS_TOKEN_EXPIRY ∧
    (⟨⟨1, 40, 864040⟩, REFRESH_TOKEN_SECRET⟩ : Jwt).payload.sub = 1 ∧
    (⟨⟨1, 40, 864040⟩, REFRESH_TOKEN_SECRET⟩ : Jwt).payload.exp = 40 + REFRESH_TOKEN_EXPIRY ∧
    Json.hasTokenLeaf ⟨⟨1, 40, 86440⟩, ACCESS_TOKEN_SECRET⟩
      (resultBody (loginUser ⟨some "alice", none, some "Secret123!"⟩
        [⟨1, "alice", "alice@x.com", "alice wonderland", "avatar.png", "",
          bcryptHash "Secret123!", none⟩] 40).1) = true ∧
    Json.hasTokenLeaf ⟨⟨1, 40, 864040⟩, REFRESH_TOKEN_SECRET⟩
      (resultBody (loginUser ⟨some "alice", none, some "Secret123!"⟩
        [⟨1, "alice", "alice@x.com", "alice wonderland", "avatar.png", "",
          bcryptHash "Secret123!", none⟩] 40).1) = true ∧
    findById (loginUser ⟨some "alice", none, some "Secret123!"⟩
        [⟨1, "alice", "alice@x.com", "alice wonderland", "avatar.png", "",
          bcryptHash "Secret123!", none⟩] 40).2 1
      = some ⟨1, "alice", "alice@x.com", "alice wonderland", "avatar.png", "",
          bcryptHash "Secret123!", some ⟨⟨1, 40, 864040⟩, REFRESH_TOKEN_SECRET⟩⟩ :=
  login_issues_and_persists_token_pair
    [⟨1, "alice", "alice@x.com", "alice wonderland", "avatar.png", "",
      bcryptHash "Secret123!", none⟩]
    ⟨some "alice", none, some "Secret123!"⟩
    ⟨1, "alice", "alice@x.com", "alice wonderland", "avatar.png", "",
      bcryptHash "Secret123!", none⟩
    "Secret123!" 40
    (by decide) rfl (by decide) (by decide) (by decide)

/-- Every User.create rejects its document: the controller passes the key fullName, which is not
a schema path, so the required path fullname is never set. -/
theorem User_create_always_rejects (db : DB) (inp : CreateUserInput) :
    User_create db inp = .error (.validationFailure "Full Name is required") := by
  simp [User_create, toRawUserDoc, requiredValidationError]

/-- String leaves of the body the client receives for a thrown value. -/
theorem errorBody_strLeaves (e : HandlerError) :
    (resultBody (.error e)).strLeaves = [errorMessage e] := by
  simp [resultBody, errorResponse, Json.strLeaves, jsonFieldsStrLeaves]

/-- No string leaf of a register response is hash-shaped: every reachable outcome is a thrown
value whose message is a string literal. -/
theorem registerUser_no_hash_leaves (req : RegisterReq) (db : DB) :
    ∀ s ∈ (resultBody (registerUser req db).1).strLeaves, hashShaped s = false := by
  unfold registerUser
  split
  · intro s hs
    rw [errorBody_strLeaves] at hs
    simp at hs
    subst hs
    decide
  · split
    · intro s hs
      rw [errorBody_strLeaves] at hs
      simp at hs
      subst hs
      decide
    · split
      · intro s hs
        rw [errorBody_strLeaves] at hs
        simp at hs
        subst hs
        decide
      · simp only [uploadOnCloudinary]
        rw [User_create_always_rejects]
        intro s hs
        rw [errorBody_strLeaves] at hs
        simp at hs
        subst hs
        decide

/-- No string leaf of a login response is hash-shaped: error messages are literals, and the
serialised user of a successful login carries only non-password profile fields of a well-formed
stored record (its password and refreshToken properties are assigned undefined). -/
theorem loginUser_no_hash_leaves (req : LoginReq) (db : DB) (now : Nat)
    (hdb : DbWellformed db) :
    ∀ s ∈ (resultBody (loginUser req db now).1).strLeaves, hashShaped s = false := by
  unfold loginUser
  split
  · intro s hs
    rw [errorBody_strLeaves] at hs
    simp at hs
    subst hs
    decide
  · split
    · intro s hs
      rw [errorBody_strLeaves] at hs
      simp at hs
      subst hs
      decide
    · split
      · intro s hs
        rw [errorBody_strLeaves] at hs
        simp at hs
        subst hs
        decide
      · rename_i existingUser heq
        split
        · intro s hs
          rw [errorBody_strLeaves] at hs
          simp at hs
          subst hs
          decide
        · have hmem : existingUser ∈ db := List.mem_of_find?_eq_some heq
          obtain ⟨hpw, hun, hem, hfn, hav, hcv⟩ := hdb existingUser hmem
          intro s hs
          simp [resultBody, apiResponseJson, userPublicFields, Json.strLeaves,
            jsonFieldsStrLeaves] at hs
          rcases hs with rfl | rfl | rfl | rfl | rfl | rfl
          · exact hun
          · exact hem
          · exact hfn
          · exact hav
          · exact hcv
          · decide

/-- No string leaf of a logout response is hash-shaped. -/
theorem logoutUser_no_hash_leaves (uid : Nat) (db : DB) :
    ∀ s ∈ (resultBody (logoutUser uid db).1).strLeaves, hashShaped s = false := by
  intro s hs
  simp [logoutUser, resultBody, apiResponseJson, Json.strLeaves, jsonFieldsStrLeaves] at hs
  subst hs
  decide

/-- No string leaf of a refresh response is hash-shaped: error messages (including the messages
of propagated jsonwebtoken errors) are literals, and a successful body carries the two token
leaves and a literal message only. -/
theorem refreshAccessToken_no_hash_leaves (req : RefreshReq) (db : DB) (now : Nat) :
    ∀ s ∈ (resultBody (refreshAccessToken req db now).1).strLeaves, hashShaped s = false := by
  unfold refreshAccessToken
  cases hjs : jsTruthyToken (jsOrToken req.cookieRefreshToken req.bodyRefreshToken) with
  | none =>
    simp only [hjs]
    intro s hs
    rw [errorBody_strLeaves] at hs
    simp at hs
    subst hs
    decide
  | some presented =>
    simp only [hjs]
    cases hv : jwtVerify presented REFRESH_TOKEN_SECRET now with
    | error e =>
      simp only [hv]
      intro s hs
      rw [errorBody_strLeaves] at hs
      simp at hs
      subst hs
      cases e <;> decide
    | ok payload =>
      simp only [hv]
      cases hf : findById db payload.sub with
      | none =>
        simp only [hf]
        intro s hs
        rw [errorBody_strLeaves] at hs
        simp at hs
        subst hs
        decide
      | some u =>
        simp only [hf]
        cases hm : tokenStringEq presented u.refreshToken with
        | false =>
          intro s hs
          simp [resultBody, errorResponse, errorMessage, Json.strLeaves,
            jsonFieldsStrLeaves] at hs
          subst hs
          decide
        | true =>
          intro s hs
          simp [resultBody, apiResponseJson, Json.strLeaves, jsonFieldsStrLeaves] at hs
          subst hs
          decide

/-- No string leaf of a password-change response is hash-shaped: every message is a literal and
a successful body carries an empty data object. -/
theorem changedCurrentPassword_no_hash_leaves (uid : Nat) (req : ChangePasswordReq) (db : DB) :
    ∀ s ∈ (resultBody (changedCurrentPassword uid req db).1).strLeaves,
      hashShaped s = false := by
  unfold changedCurrentPassword
  split
  · intro s hs
    rw [errorBody_strLeaves] at hs
    simp at hs
    subst hs
    decide
  · split
    · intro s hs
      rw [errorBody_strLeaves] at hs
      simp at hs
      subst hs
      decide
    · split
      · intro s hs
        rw [errorBody_strLeaves] at hs
        simp at hs
        subst hs
        decide
      · split
        · intro s hs
          rw [errorBody_strLeaves] at hs
          simp at hs
          subst hs
          decide
        · intro s hs
          simp [resultBody, apiResponseJson, Json.strLeaves, jsonFieldsStrLeaves] at hs
          subst hs
          decide

/-- No string leaf of a current-user response is hash-shaped: the middleware attaches the user
record without its password and refreshToken paths. -/
theorem getCurrentUser_no_hash_leaves (uid : Nat) (db : DB) (hdb : DbWellformed db) :
    ∀ s ∈ (resultBody (getCurrentUser uid db).1).strLeaves, hashShaped s = false := by
  unfold getCurrentUser verifyJWTAttachedUser
  cases heq : findById db uid with
  | none =>
    intro s hs
    simp [resultBody, errorResponse, errorMessage, Json.strLeaves, jsonFieldsStrLeaves] at hs
    subst hs
    decide
  | some u =>
    have hmem : u ∈ db := List.mem_of_find?_eq_some heq
    obtain ⟨hpw, hun, hem, hfn, hav, hcv⟩ := hdb u hmem
    intro s hs
    simp [resultBody, apiResponseJson, userPublicFields, Json.strLeaves,
      jsonFieldsStrLeaves] at hs
    rcases hs with rfl | rfl | rfl | rfl | rfl | rfl
    · exact hun
    · exact hem
    · exact hfn
    · exact hav
    · exact hcv
    · decide

/-- The serialised refreshToken field contributes no string leaf (it is a token or null). -/
theorem strLeaves_refreshToken_field (o : Option Jwt) :
    (match o with
      | some t => Json.token t
      | none => Json.null).strLeaves = [] := by
  cases o <;> rfl

/-- No string leaf of an update-account response is hash-shaped, provided the stored records are
well-formed and the request email is not hash-shaped: the serialised user is under
select("-password"), so its string leaves are profile fields and the updated email. -/
theorem updateAccountDetails_no_hash_leaves (uid : Nat) (fullname email : Option String)
    (db : DB) (hdb : DbWellformed db) (hemail : optNonHash email) :
    ∀ s ∈ (resultBody (updateAccountDetails uid fullname email db).1).strLeaves,
      hashShaped s = false := by
  unfold updateAccountDetails
  split
  · intro s hs
    rw [errorBody_strLeaves] at hs
    simp at hs
    subst hs
    decide
  · rename_i hguard
    intro s hs
    cases hfindu : findById (dbUpdateById db uid (fun u => { u with email := email.getD "" }))
        uid with
    | none =>
      simp [hfindu, resultBody, apiResponseJson, Json.strLeaves, jsonFieldsStrLeaves] at hs
      subst hs
      decide
    | some v =>
      have hv : v ∈ dbUpdateById db uid (fun u => { u with email := email.getD "" }) :=
        List.mem_of_find?_eq_some hfindu
      obtain ⟨w, hwmem, hwv⟩ := List.mem_map.mp hv
      obtain ⟨hpw, hun, hem, hfn, hav, hcv⟩ := hdb w hwmem
      simp [hfindu, resultBody, apiResponseJson, userMinusPasswordFields, userPublicFields,
        strLeaves_refreshToken_field, Json.strLeaves, jsonFieldsStrLeaves] at hs
      have hgetD : hashShaped (email.getD "") = false := by
        cases email with
        | none => decide
        | some e => exact hemail
      rcases hs with rfl | rfl | rfl | rfl | rfl | rfl
      · rw [← hwv]
        by_cases hwid : (w.id == uid) = true <;> simp [hwid, hun]
      · rw [← hwv]
        by_cases hwid : (w.id == uid) = true <;> simp [hwid, hem, hgetD]
      · rw [← hwv]
        by_cases hwid : (w.id == uid) = true <;> simp [hwid, hfn]
      · rw [← hwv]
        by_cases hwid : (w.id == uid) = true <;> simp [hwid, hav]
      · rw [← hwv]
        by_cases hwid : (w.id == uid) = true <;> simp [hwid, hcv]
      · decide

/-- C5 counterexample: the update-account response serialises the user under
select("-password") only, so the body contains the persisted refreshToken of the user record
(which is still the persisted value after the request). -/
theorem updateAccountDetails_response_contains_persisted_refresh_token :
    findById
      [⟨1, "alice", "alice@x.com", "alice wonderland", "avatar.png", "",
        bcryptHash "Secret123!", some ⟨⟨1, 10, 864010⟩, REFRESH_TOKEN_SECRET⟩⟩] 1
      = some ⟨1, "alice", "alice@x.com", "alice wonderland", "avatar.png", "",
          bcryptHash "Secret123!", some ⟨⟨1, 10, 864010⟩, REFRESH_TOKEN_SECRET⟩⟩ ∧
    Json.hasTokenLeaf ⟨⟨1, 10, 864010⟩, REFRESH_TOKEN_SECRET⟩
      (resultBody (updateAccountDetails 1 (some "Alice W") (some "alice2@x.com")
        [⟨1, "alice", "alice@x.com", "alice wonderland", "avatar.png", "",
          bcryptHash "Secret123!", some ⟨⟨1, 10, 864010⟩, REFRESH_TOKEN_SECRET⟩⟩]).1) = true ∧
    findById (updateAccountDetails 1 (some "Alice W") (some "alice2@x.com")
        [⟨1, "alice", "alice@x.com", "alice wonderland", "avatar.png", "",
          bcryptHash "Secret123!", some ⟨⟨1, 10, 864010⟩, REFRESH_TOKEN_SECRET⟩⟩]).2 1
      = some ⟨1, "alice", "alice2@x.com", "alice wonderland", "avatar.png", "",
          bcryptHash "Secret123!", some ⟨⟨1, 10, 864010⟩, REFRESH_TOKEN_SECRET⟩⟩ := by
  refine ⟨by decide, by decide, by decide⟩

/-- C5 amended: for every modelled operation, the response body never contains the stored
password hash of any user: the password field is never serialised, every other serialised string
is a profile field, a request email or a literal message, and none of those is hash-shaped. -/
theorem responses_never_contain_password_hash (db : DB) (now : Nat) (op : Operation)
    (u : UserRecord) (hdb : DbWellformed db) (hop : OpWellformed op) (hu : u ∈ db) :
    Json.hasStrLeaf u.password (resultBody (runOperation db now op).1) = false := by
  have hpw : hashShaped u.password = true := (hdb u hu).1
  have hleaves : ∀ s ∈ (resultBody (runOperation db now op).1).strLeaves,
      hashShaped s = false := by
    cases op with
    | register req => exact registerUser_no_hash_leaves req db
    | login req => exact loginUser_no_hash_leaves req db now hdb
    | logout uid => exact logoutUser_no_hash_leaves uid db
    | refresh req => exact refreshAccessToken_no_hash_leaves req db now
    | changePassword uid req => exact changedCurrentPassword_no_hash_leaves uid req db
    | currentUser uid => exact getCurrentUser_no_hash_leaves uid db hdb
    | updateAccount uid fullname email =>
      exact updateAccountDetails_no_hash_leaves uid fullname email db hdb hop
  rw [Json.hasStrLeaf]
  apply decide_eq_false
  intro hmem
  have hcontra := hleaves _ hmem
  rw [hpw] at hcontra
  exact Bool.true_eq_false.mp hcontra

/-- Witness for the amended C5 at a concrete store and a concrete login operation. -/
theorem responses_never_contain_password_hash_witness :
    Json.hasStrLeaf (bcryptHash "Secret123!")
      (resultBody (runOperation
        [⟨1, "alice", "alice@x.com", "alice wonderland", "avatar.png", "",
          bcryptHash "Secret123!", none⟩] 40
        (.login ⟨some "alice", none, some "Secret123!"⟩)).1) = false :=
  responses_never_contain_password_hash
    [⟨1, "alice", "alice@x.com", "alice wonderland", "avatar.png", "",
      bcryptHash "Secret123!", none⟩] 40
    (.login ⟨some "alice", none, some "Secret123!"⟩)
    ⟨1, "alice", "alice@x.com", "alice wonderland", "avatar.png", "",
      bcryptHash "Secret123!", none⟩
    (by
      intro v hv
      rw [List.mem_singleton] at hv
      subst hv
      exact ⟨by decide, by decide, by decide, by decide, by decide, by decide⟩)
    trivial
    (List.mem_singleton.mpr rfl)
